import Mathlib

/-!
Shallow embedding of the agent/tool orchestration loop of `src/agents.py`
(`FileSearchTool.run`, `Agent.run`) from the job_application_assistant
repository.

Remote services are modelled as oracles in an `Env` record: `chat` stands for
`client.chat.completions.create` (both the planning call and the synthesis
call), and `search` stands for the whole Assistants-API retrieval round trip
performed inside `FileSearchTool.run` (create assistant, create thread, post
message, poll the run, read messages back, delete the ephemeral resources);
its success value is the `response_content_str` that round trip produces, and
its error value is the exception message a transport failure would raise.
Every function returns, next to its result, the list of remote interactions it
performed, so that call-count and call-order properties can be stated.

Python string operations are modelled on `List Char`:
`s.lower()` as a per-character ASCII lowering (`pyLower`), `needle in s` and
`s.find(needle)` as `findSub`, `s.strip()` as `stripChars`, and slicing as
`List.drop` / `List.take`.
-/

/-- Per-character lowering, the model of Python `str.lower()` for the ASCII
texts this program manipulates. -/
def pyLower (cs : List Char) : List Char := cs.map Char.toLower

/-- `isPre needle hay` is true when `needle` is a prefix of `hay`
(the primitive behind Python substring search). -/
def isPre : List Char → List Char → Bool
  | [], _ => true
  | _ :: _, [] => false
  | a :: as, b :: bs => a = b && isPre as bs

/-- Model of Python `hay.find(needle)`: index of the first occurrence of
`needle` in `hay`, `none` standing for Python result `-1`.
`needle in hay` is `(findSub hay needle).isSome`. -/
def findSub : List Char → List Char → Option Nat
  | [], needle => if needle = [] then some 0 else none
  | c :: t, needle =>
    if isPre needle (c :: t) then some 0 else (findSub t needle).map (· + 1)

/-- Model of Python `s.strip()`: drop whitespace from both ends. -/
def stripChars (cs : List Char) : List Char :=
  ((cs.dropWhile Char.isWhitespace).reverse.dropWhile Char.isWhitespace).reverse

/-- One role-tagged chat message, as in the `messages` lists of
`Agent.run` (`{"role": ..., "content": ...}`). -/
structure Msg where
  role : String
  content : String
  deriving DecidableEq, Repr

/-- One remote interaction performed during a turn.
`modelCall` is a `client.chat.completions.create` call with the given
messages; `retrievalCall` is the orchestrator invoking the retrieval tool
(`await file_search_tool.run(query_for_tool)`, the spec's "retrieval call");
`assistantApiCall` is the Assistants-API round trip that
`FileSearchTool.run` performs remotely when a vector store is configured. -/
inductive CallEvent where
  | modelCall (messages : List Msg)
  | retrievalCall (query : String)
  | assistantApiCall (query : String)
  deriving DecidableEq, Repr

/-- True exactly on `modelCall` events. -/
def CallEvent.isModel : CallEvent → Bool
  | .modelCall _ => true
  | _ => false

/-- True exactly on `retrievalCall` events. -/
def CallEvent.isRetrieval : CallEvent → Bool
  | .retrievalCall _ => true
  | _ => false

/-- True exactly on `assistantApiCall` events. -/
def CallEvent.isAssistantApi : CallEvent → Bool
  | .assistantApiCall _ => true
  | _ => false

/-- The remote world: `chat` answers chat-completion requests, `search`
answers the Assistants-API retrieval round trip for a query. An `error`
value models a raised exception (transport error); its payload is `str(e)`. -/
structure Env where
  chat : List Msg → Except String String
  search : String → Except String String

/-- The default `description` set in `FileSearchTool.__init__`
(`src/agents.py` lines 17-21; adjacent Python string literals concatenate). -/
def fileSearchDescription : String :=
  "Use this tool to search Minaya Algora\x27s professional documents (Comprehensive Professional Profile, Cover Letter - SmarterX.pdf, Resume - SmarterX.pdf) for specific details about her experience, skills, projects, motivations, and qualifications. The tool will provide a direct answer based on the documents."

/-- The retrieval tool of `src/agents.py` (class `FileSearchTool`). -/
structure FileSearchTool where
  name : String
  description : String
  vector_store_ids : List String

/-- `FileSearchTool.__init__` (lines 15-24): the name is always
`"file_search"`, the description the fixed text above, and
`vector_store_ids or []` stores the given list (a `None` argument becomes
the empty list, which a caller of this model passes as `[]` directly). -/
def FileSearchTool.init (vector_store_ids : List String) : FileSearchTool :=
  { name := "file_search"
    description := fileSearchDescription
    vector_store_ids := vector_store_ids }

/-- The guard of lines 23 and 31:
`not self.vector_store_ids or not self.vector_store_ids[0]`. -/
def FileSearchTool.unconfigured (tool : FileSearchTool) : Bool :=
  tool.vector_store_ids = [] || tool.vector_store_ids.headD "" = ""

/-- `FileSearchTool.run` (lines 27-108). When no vector store id is
configured it returns the fixed error string without touching the network.
Otherwise it performs the Assistants-API round trip (`env.search`); a raised
transport error is caught by the `except` at line 93 and converted into the
string of line 95 rather than propagated. The returned event list records
the remote round trip when it happens. -/
def FileSearchTool.run (tool : FileSearchTool) (env : Env) (query : String) :
    String × List CallEvent :=
  if tool.unconfigured then
    ("Error: Vector Store ID is not configured for FileSearchTool.", [])
  else
    match env.search query with
    | .ok response_content_str => (response_content_str, [.assistantApiCall query])
    | .error e =>
      ("Error during file search with Assistant API: " ++ e, [.assistantApiCall query])

/-- The agent of `src/agents.py` (class `Agent`). The Python type of the
`tools` argument is `List[FileSearchTool]`. -/
structure Agent where
  name : String
  instructions : String
  tools : List FileSearchTool

/-- The dictionary `{"output": ...}` that `Agent.run` returns. -/
structure RunResult where
  output : String
  deriving DecidableEq, Repr

/-- The `tools_description` built at line 132. -/
def toolsDescriptionFor (tool : FileSearchTool) : String :=
  "- **" ++ tool.name ++ "**: " ++ tool.description ++ "\n"

/-- The `agent_system_prompt` f-string of lines 134-149, with the
instructions, tool name and tool description interpolated (the surrounding
indentation of the Python triple-quoted string is part of the text). -/
def agentSystemPrompt (instructions : String) (tool_name : String)
    (tools_description : String) : String :=
  "\n        " ++ instructions ++ " \n        You have access to the following tool:\n        "
    ++ tools_description
    ++ "\n        YOUR PROCESS FOR RESPONDING TO QUESTIONS ABOUT MINAYA:\n        1. Analyze the User\x27s Question about Minaya.\n        2. Plan Tool Usage: You MUST use the \x27"
    ++ tool_name
    ++ "\x27 tool for any informational request about Minaya.\n           State your plan clearly using this exact format: `TOOL_USE: I will use ["
    ++ tool_name
    ++ "] to find information about [specific query for the tool].` (Ensure the tool name is exactly \x27"
    ++ tool_name
    ++ "\x27 and the query is enclosed in brackets).\n        3. Generate Response AFTER Tool Use:\n           * The \x27"
    ++ tool_name
    ++ "\x27 tool will provide a direct answer based on Minaya\x27s documents.\n           * Your final response about Minaya should present this information clearly. \n           * If the tool indicates information is not found, relay that message as per your core instructions. Do NOT invent information.\n        If the user\x27s message is not an informational question about Minaya (e.g., a simple greeting like \x27hello\x27), you can respond directly.\n        However, for any request that requires specific information about Minaya, you must follow the tool usage plan.\n        Begin by stating your plan or providing an immediate answer if no tool is needed.\n        "

/-- The two-element message list of lines 151-152 that the planning call
receives. -/
def initialMessages (agent : Agent) (tool : FileSearchTool) (user_message : String) :
    List Msg :=
  [⟨"system", agentSystemPrompt agent.instructions tool.name (toolsDescriptionFor tool)⟩,
   ⟨"user", user_message⟩]

/-- The `tool_results_text` of line 220 framing the tool output as evidence. -/
def toolResultsText (tool_name query tool_output : String) : String :=
  "--- Information retrieved by " ++ tool_name ++ " for query \x27" ++ query
    ++ "\x27 ---\n" ++ tool_output ++ "\n--- End of Information ---"

/-- The `final_instruction` of lines 227-231. -/
def finalInstructionText (tool_name tool_results_text user_message : String) : String :=
  "The \x27" ++ tool_name
    ++ "\x27 tool provided the following information based on Minaya\x27s documents:\n"
    ++ tool_results_text ++ "\n\n"
    ++ "Present this information as your final answer to the original user question: \x27"
    ++ user_message ++ "\x27. "
    ++ "Ensure your response aligns with your core instructions (persona, tone, and how to handle missing information if the tool indicated so)."

/-- The `final_prompt_messages` of lines 224-232: the planning messages, the
phase-1 assistant reply, the evidence text as a user message, and the final
system instruction. -/
def finalPromptMessages (agent : Agent) (tool : FileSearchTool)
    (user_message plan tool_results_text : String) : List Msg :=
  initialMessages agent tool user_message
    ++ [⟨"assistant", plan⟩,
        ⟨"user", tool_results_text⟩,
        ⟨"system", finalInstructionText tool.name tool_results_text user_message⟩]

/-- The configuration-error message of line 128. -/
def toolMissingMsg : String :=
  "Configuration Error: The FileSearchTool is not available to the agent. Please ensure it\x27s enabled."

/-- The note appended at line 247 when the query intro phrase is missing. -/
def noteIntroMissing : String :=
  "\n\n(Note: The plan to find information was not clearly stated as expected. Please try rephrasing.)"

/-- The note appended at line 244 when tool name or query validation fails. -/
def noteInvalidToolOrQuery : String :=
  "\n\n(Note: Tool name or query was not correctly identified in the plan. Please try rephrasing.)"

/-- Outcome of scanning the phase-1 planning text (lines 169-217):
`noToolRequest` is the `else` of line 252 (marker or invocation pattern
absent), `introNotFound` the `else` of line 245, `invalidToolOrQuery` the
`else` of line 242, and `dispatch q` the success of line 217 with the query
that will be passed to the tool. -/
inductive PlanOutcome where
  | noToolRequest
  | introNotFound
  | invalidToolOrQuery
  | dispatch (query : String)
  deriving DecidableEq, Repr

/-- The query clean-up of lines 189-199, applied to the original-case text
after the intro phrase: strip, drop one leading `[`, drop one trailing `]`
if present, otherwise-independently drop one trailing `.` if present, strip
again. -/
def cleanQuery (cs : List Char) : List Char :=
  let potential_query := stripChars cs
  let potential_query :=
    if potential_query.head? = some '[' then potential_query.drop 1 else potential_query
  let potential_query :=
    if potential_query.getLast? = some ']' then potential_query.dropLast else potential_query
  let potential_query :=
    if potential_query.getLast? = some '.' then potential_query.dropLast else potential_query
  stripChars potential_query

/-- The tool-name re-extraction of lines 202-210: find the first `]` at or
after `start_of_bracket` in the original-case text; between the brackets,
stripped (`orig[start_of_bracket + 1 : end_of_bracket]`); `"unknown_tool"`
when no `]` exists. The slice length `end - (start + 1)` is `j - 1` for the
relative index `j` of the found `]`. -/
def extractedToolName (orig : List Char) (start_of_bracket : Nat) : List Char :=
  match findSub (orig.drop start_of_bracket) [']'] with
  | none => "unknown_tool".data
  | some j => stripChars ((orig.drop (start_of_bracket + 1)).take (j - 1))

/-- The plan-scanning logic of `Agent.run`, lines 169-217. The two `in`
checks of lines 175-176 (marker `TOOL_USE:` and invocation pattern
`i will use [<tool name lowered>]`, both on the lowered text); the search
for the intro phrase `to find information about ` (line 184); the query
clean-up; the tool-name re-extraction from
`find(pattern) + len("i will use ")`; and the validation of line 217
(lowered extracted name equals lowered registered name, query non-empty). -/
def analyzePlan (tool_name : String) (agent_response_phase1 : String) : PlanOutcome :=
  let orig := agent_response_phase1.data
  let agent_response_lower := pyLower orig
  let invocation_pattern := "i will use [".data ++ pyLower tool_name.data ++ [']']
  match findSub agent_response_lower (pyLower "TOOL_USE:".data),
        findSub agent_response_lower invocation_pattern with
  | some _, some tool_name_phrase_search_start =>
    (match findSub agent_response_lower "to find information about ".data with
     | none => .introNotFound
     | some query_intro_start_index =>
       let query_start_actual := query_intro_start_index + "to find information about ".length
       let query_for_tool := cleanQuery (orig.drop query_start_actual)
       let start_of_bracket := tool_name_phrase_search_start + "i will use ".length
       if pyLower (extractedToolName orig start_of_bracket) = pyLower tool_name.data
           ∧ query_for_tool ≠ [] then
         .dispatch (String.mk query_for_tool)
       else
         .invalidToolOrQuery)
  | _, _ => .noToolRequest

/-- `Agent.run` (lines 119-257). `self.tools.head?` models
`next((t for t in self.tools if isinstance(t, FileSearchTool)), None)`:
every element of the `List[FileSearchTool]` argument passes the isinstance
test, so the first element is taken when one exists. A transport error on
the planning call is caught by the outer `except` (line 255); one on the
synthesis call is caught by the inner `except` (line 249), which wraps it
with the original plan text. The event list records, in order, every remote
interaction of the turn. -/
def Agent.run (agent : Agent) (env : Env) (user_message : String) :
    RunResult × List CallEvent :=
  match agent.tools.head? with
  | none => ({ output := toolMissingMsg }, [])
  | some file_search_tool =>
    let messages := initialMessages agent file_search_tool user_message
    match env.chat messages with
    | .error e => ({ output := "Error in agent run: " ++ e }, [.modelCall messages])
    | .ok agent_response_phase1 =>
      match analyzePlan file_search_tool.name agent_response_phase1 with
      | .noToolRequest =>
        ({ output := agent_response_phase1 }, [.modelCall messages])
      | .introNotFound =>
        ({ output := agent_response_phase1 ++ noteIntroMissing }, [.modelCall messages])
      | .invalidToolOrQuery =>
        ({ output := agent_response_phase1 ++ noteInvalidToolOrQuery }, [.modelCall messages])
      | .dispatch query_for_tool =>
        let tool_run := file_search_tool.run env query_for_tool
        let tool_results_text :=
          toolResultsText file_search_tool.name query_for_tool tool_run.1
        let final_prompt_messages :=
          finalPromptMessages agent file_search_tool user_message
            agent_response_phase1 tool_results_text
        match env.chat final_prompt_messages with
        | .ok out =>
          ({ output := out },
           .modelCall messages :: .retrievalCall query_for_tool ::
             (tool_run.2 ++ [.modelCall final_prompt_messages]))
        | .error e =>
          ({ output := "Error during tool processing logic: " ++ e
                ++ "\nOriginal plan: " ++ agent_response_phase1 },
           .modelCall messages :: .retrievalCall query_for_tool ::
             (tool_run.2 ++ [.modelCall final_prompt_messages]))

/-! ## Characterization lemmas for the control flow of `Agent.run` -/

/-- The retrieval tool performs at most the one Assistants-API round trip. -/
theorem FileSearchTool.run_events (tool : FileSearchTool) (env : Env) (q : String) :
    (tool.run env q).2 = [] ∨ (tool.run env q).2 = [CallEvent.assistantApiCall q] := by
  unfold FileSearchTool.run
  by_cases h : tool.unconfigured
  · simp [h]
  · simp only [h]
    cases env.search q <;> simp

/-- With no tool registered, the turn short-circuits. -/
theorem run_eq_noTool (agent : Agent) (env : Env) (user : String)
    (hT : agent.tools = []) :
    agent.run env user = ({ output := toolMissingMsg }, []) := by
  obtain ⟨n, ins, tools⟩ := agent
  simp only at hT
  subst hT
  rfl

/-- A transport error on the planning call is caught by the outer `except`. -/
theorem run_eq_planError (agent : Agent) (tool : FileSearchTool)
    (rest : List FileSearchTool) (env : Env) (user e : String)
    (hT : agent.tools = tool :: rest)
    (h : env.chat (initialMessages agent tool user) = .error e) :
    agent.run env user = ({ output := "Error in agent run: " ++ e },
      [CallEvent.modelCall (initialMessages agent tool user)]) := by
  obtain ⟨n, ins, tools⟩ := agent
  simp only at hT
  subst hT
  unfold Agent.run
  simp only [List.head?_cons]
  rw [h]

/-- When the planning call succeeds, the turn is determined by the plan
scan and, on dispatch, by the tool run and the synthesis call. -/
theorem run_eq_ok (agent : Agent) (tool : FileSearchTool)
    (rest : List FileSearchTool) (env : Env) (user plan : String)
    (hT : agent.tools = tool :: rest)
    (h : env.chat (initialMessages agent tool user) = .ok plan) :
    agent.run env user =
      (match analyzePlan tool.name plan with
       | .noToolRequest =>
         ({ output := plan }, [CallEvent.modelCall (initialMessages agent tool user)])
       | .introNotFound =>
         ({ output := plan ++ noteIntroMissing },
          [CallEvent.modelCall (initialMessages agent tool user)])
       | .invalidToolOrQuery =>
         ({ output := plan ++ noteInvalidToolOrQuery },
          [CallEvent.modelCall (initialMessages agent tool user)])
       | .dispatch q =>
         let tool_run := tool.run env q
         let trt := toolResultsText tool.name q tool_run.1
         let fm := finalPromptMessages agent tool user plan trt
         match env.chat fm with
         | .ok out =>
           ({ output := out },
            CallEvent.modelCall (initialMessages agent tool user) ::
              CallEvent.retrievalCall q :: (tool_run.2 ++ [CallEvent.modelCall fm]))
         | .error e =>
           ({ output := "Error during tool processing logic: " ++ e
                ++ "\nOriginal plan: " ++ plan },
            CallEvent.modelCall (initialMessages agent tool user) ::
              CallEvent.retrievalCall q :: (tool_run.2 ++ [CallEvent.modelCall fm]))) := by
  obtain ⟨n, ins, tools⟩ := agent
  simp only at hT
  subst hT
  unfold Agent.run
  simp only [List.head?_cons]
  rw [h]

/-! ## Concrete fixtures used by witnesses and counterexamples -/

/-- A configured retrieval tool, as `create_research_assistant` builds one. -/
def demoTool : FileSearchTool := FileSearchTool.init ["vs_demo_1"]

/-- A concrete agent holding the configured tool. -/
def demoAgent : Agent :=
  { name := "Minaya\x27s Assistant", instructions := "Act as Minaya.", tools := [demoTool] }

/-- The planner output of the spec\x27s round-trip scenario 2, which is also
the exact plan format the system prompt mandates. -/
def scenario2Plan : String :=
  "TOOL_USE: I will use [file_search] to find information about [automation tools]."

/-- An environment whose remote calls always succeed with fixed texts. -/
def constEnv (plan : String) : Env :=
  { chat := fun _ => .ok plan, search := fun _ => .ok "She has used Zapier and Make." }

/-- An environment whose chat calls succeed and whose retrieval round trip
raises a transport error. -/
def errSearchEnv : Env :=
  { chat := fun _ => .ok scenario2Plan, search := fun _ => .error "boom" }

/-- An environment built from total response functions: every remote call
succeeds. -/
def okEnv (chatF : List Msg → String) (searchF : String → String) : Env :=
  { chat := fun m => .ok (chatF m), search := fun q => .ok (searchF q) }

/-! ## Parsing-level helper lemmas -/

/-- When the lowered plan does not contain the lowered marker `TOOL_USE:`,
the scan takes the no-tool branch. -/
theorem analyzePlan_noMarker (tool_name plan : String)
    (h : findSub (pyLower plan.data) (pyLower "TOOL_USE:".data) = none) :
    analyzePlan tool_name plan = .noToolRequest := by
  unfold analyzePlan
  dsimp only
  rw [h]

/-! ## Claim theorems -/

/-- Claim C8: for every user message, if no FileSearchTool is present in the
agent\x27s tool list, `Agent.run` short-circuits before making any remote
call (empty event trace) and returns the fixed message explaining that
document search must be enabled. -/
theorem C8_no_tool_short_circuits (agent : Agent) (env : Env) (user : String)
    (hT : agent.tools = []) :
    agent.run env user = ({ output := toolMissingMsg }, []) :=
  run_eq_noTool agent env user hT

/-- Witness for C8 at a concrete agent with an empty tool list. -/
theorem C8_no_tool_short_circuits_witness :
    ({ name := "A", instructions := "I", tools := [] } : Agent).run
        (constEnv "x") "hello" = ({ output := toolMissingMsg }, []) :=
  C8_no_tool_short_circuits { name := "A", instructions := "I", tools := [] }
    (constEnv "x") "hello" rfl

/-- Claim C10: a FileSearchTool constructed with an empty
`vector_store_ids` list, or with an empty first identifier, answers every
query with the fixed configuration-error string and performs no remote API
call (empty event trace). -/
theorem C10_unconfigured_store_no_remote_call (ids : List String) (env : Env)
    (q : String) (h : ids = [] ∨ ids.headD "" = "") :
    (FileSearchTool.init ids).run env q
      = ("Error: Vector Store ID is not configured for FileSearchTool.", []) := by
  have hu : (FileSearchTool.init ids).unconfigured = true := by
    cases ids with
    | nil => rfl
    | cons a t =>
      rcases h with h | h
      · cases h
      · have ha : a = "" := by simpa [List.headD] using h
        simp [FileSearchTool.unconfigured, FileSearchTool.init, ha]
  unfold FileSearchTool.run
  rw [hu]
  rfl

/-- Witness for C10 at the empty identifier list. -/
theorem C10_unconfigured_store_no_remote_call_witness :
    (FileSearchTool.init []).run (constEnv "x") "any query"
      = ("Error: Vector Store ID is not configured for FileSearchTool.", []) :=
  C10_unconfigured_store_no_remote_call [] (constEnv "x") "any query" (Or.inl rfl)

/-- Claim C4: for every user message whose planning call succeeds with a
planning text containing no invocation marker (`TOOL_USE:`,
case-insensitively), `Agent.run` returns that planning text completely
unchanged and the turn performs exactly one remote call in total: the
planning call. -/
theorem C4_no_marker_plan_returned_unchanged (agent : Agent)
    (tool : FileSearchTool) (rest : List FileSearchTool) (env : Env)
    (user plan : String) (hT : agent.tools = tool :: rest)
    (hplan : env.chat (initialMessages agent tool user) = .ok plan)
    (hnm : findSub (pyLower plan.data) (pyLower "TOOL_USE:".data) = none) :
    agent.run env user
      = ({ output := plan }, [CallEvent.modelCall (initialMessages agent tool user)]) := by
  have hrun := run_eq_ok agent tool rest env user plan hT hplan
  rw [analyzePlan_noMarker tool.name plan hnm] at hrun
  exact hrun

/-- Witness for C4: round-trip scenario 1 of the spec (`"hello"` with plan
`"Hi! How can I help?"`). -/
theorem C4_no_marker_plan_returned_unchanged_witness :
    demoAgent.run (constEnv "Hi! How can I help?") "hello"
      = ({ output := "Hi! How can I help?" },
         [CallEvent.modelCall (initialMessages demoAgent demoTool "hello")]) :=
  C4_no_marker_plan_returned_unchanged demoAgent demoTool [] (constEnv "Hi! How can I help?")
    "hello" "Hi! How can I help?" rfl rfl (by decide)

/-- Claim C9: `Agent.run` is total at the turn boundary. For every agent,
environment and user message it returns a result whose `output` field is a
string, and every exception raised by the underlying model or retrieval
calls is converted into error-describing text: a planning-call exception
becomes `Error in agent run: ...` (outer `except`), a synthesis-call
exception becomes `Error during tool processing logic: ...` (inner
`except`), and a retrieval exception is absorbed inside
`FileSearchTool.run` (claim C7), so each turn ends in exactly one of the
five displayable shapes below. -/
theorem C9_turn_always_returns_displayable_string (agent : Agent) (env : Env)
    (user : String) :
    ∃ out trace, agent.run env user = ({ output := out }, trace) ∧
      ((agent.tools = [] ∧ out = toolMissingMsg) ∨
       (∃ tool rest e, agent.tools = tool :: rest ∧
          env.chat (initialMessages agent tool user) = .error e ∧
          out = "Error in agent run: " ++ e) ∨
       (∃ tool rest plan, agent.tools = tool :: rest ∧
          env.chat (initialMessages agent tool user) = .ok plan ∧
          (out = plan ∨ out = plan ++ noteIntroMissing
            ∨ out = plan ++ noteInvalidToolOrQuery)) ∨
       (∃ tool rest plan q synthOut, agent.tools = tool :: rest ∧
          env.chat (initialMessages agent tool user) = .ok plan ∧
          analyzePlan tool.name plan = .dispatch q ∧
          env.chat (finalPromptMessages agent tool user plan
            (toolResultsText tool.name q (tool.run env q).1)) = .ok synthOut ∧
          out = synthOut) ∨
       (∃ tool rest plan q e, agent.tools = tool :: rest ∧
          env.chat (initialMessages agent tool user) = .ok plan ∧
          analyzePlan tool.name plan = .dispatch q ∧
          env.chat (finalPromptMessages agent tool user plan
            (toolResultsText tool.name q (tool.run env q).1)) = .error e ∧
          out = "Error during tool processing logic: " ++ e
            ++ "\nOriginal plan: " ++ plan)) := by
  cases hT : agent.tools with
  | nil =>
    exact ⟨toolMissingMsg, [], run_eq_noTool agent env user hT, Or.inl ⟨rfl, rfl⟩⟩
  | cons tool rest =>
    cases hc : env.chat (initialMessages agent tool user) with
    | error e =>
      exact ⟨_, _, run_eq_planError agent tool rest env user e hT hc,
        Or.inr (Or.inl ⟨tool, rest, e, rfl, hc, rfl⟩)⟩
    | ok plan =>
      have hrun := run_eq_ok agent tool rest env user plan hT hc
      cases hp : analyzePlan tool.name plan with
      | noToolRequest =>
        rw [hp] at hrun
        exact ⟨plan, _, hrun,
          Or.inr (Or.inr (Or.inl ⟨tool, rest, plan, rfl, hc, Or.inl rfl⟩))⟩
      | introNotFound =>
        rw [hp] at hrun
        exact ⟨plan ++ noteIntroMissing, _, hrun,
          Or.inr (Or.inr (Or.inl ⟨tool, rest, plan, rfl, hc, Or.inr (Or.inl rfl)⟩))⟩
      | invalidToolOrQuery =>
        rw [hp] at hrun
        exact ⟨plan ++ noteInvalidToolOrQuery, _, hrun,
          Or.inr (Or.inr (Or.inl ⟨tool, rest, plan, rfl, hc, Or.inr (Or.inr rfl)⟩))⟩
      | dispatch q =>
        rw [hp] at hrun
        dsimp only at hrun
        cases hs : env.chat (finalPromptMessages agent tool user plan
            (toolResultsText tool.name q (tool.run env q).1)) with
        | ok synthOut =>
          rw [hs] at hrun
          exact ⟨synthOut, _, hrun,
            Or.inr (Or.inr (Or.inr (Or.inl
              ⟨tool, rest, plan, q, synthOut, rfl, hc, hp, hs, rfl⟩)))⟩
        | error e =>
          rw [hs] at hrun
          exact ⟨_, _, hrun,
            Or.inr (Or.inr (Or.inr (Or.inr
              ⟨tool, rest, plan, q, e, rfl, hc, hp, hs, rfl⟩)))⟩

/-- Claim C7: when the retrieval round trip raises a transport error `e`,
the error is converted into the ToolResult string of line 95 rather than
propagated; the turn performs exactly one retrieval round trip (no retry)
and exactly one synthesis call, whose evidence text contains that error
string and which is given to the model as a user message. -/
theorem C7_retrieval_error_converted_single_synthesis (agent : Agent)
    (tool : FileSearchTool) (rest : List FileSearchTool) (env : Env)
    (user plan q e out : String) (hT : agent.tools = tool :: rest)
    (hplan : env.chat (initialMessages agent tool user) = .ok plan)
    (hdisp : analyzePlan tool.name plan = .dispatch q)
    (hconf : tool.unconfigured = false)
    (herr : env.search q = .error e)
    (hsynth : env.chat (finalPromptMessages agent tool user plan
        (toolResultsText tool.name q
          ("Error during file search with Assistant API: " ++ e))) = .ok out) :
    tool.run env q
      = ("Error during file search with Assistant API: " ++ e,
         [CallEvent.assistantApiCall q]) ∧
    agent.run env user = ({ output := out },
      [CallEvent.modelCall (initialMessages agent tool user),
       CallEvent.retrievalCall q,
       CallEvent.assistantApiCall q,
       CallEvent.modelCall (finalPromptMessages agent tool user plan
         (toolResultsText tool.name q
           ("Error during file search with Assistant API: " ++ e)))]) ∧
    (∃ s t, (toolResultsText tool.name q
        ("Error during file search with Assistant API: " ++ e)).data
        = s ++ ("Error during file search with Assistant API: " ++ e).data ++ t) := by
  have htool : tool.run env q
      = ("Error during file search with Assistant API: " ++ e,
         [CallEvent.assistantApiCall q]) := by
    unfold FileSearchTool.run
    rw [hconf, herr]
    rfl
  refine ⟨htool, ?_, ?_⟩
  · have hrun := run_eq_ok agent tool rest env user plan hT hplan
    rw [hdisp] at hrun
    dsimp only at hrun
    rw [htool] at hrun
    dsimp only at hrun
    rw [hsynth] at hrun
    exact hrun
  · refine ⟨("--- Information retrieved by " ++ tool.name ++ " for query \x27"
        ++ q ++ "\x27 ---\n").data, "\n--- End of Information ---".data, ?_⟩
    unfold toolResultsText
    simp only [String.data_append, List.append_assoc]

/-- Witness for C7: a concrete configured tool, a transport error `"boom"`
on the retrieval round trip, and a constant successful chat model. -/
theorem C7_retrieval_error_converted_single_synthesis_witness :
    demoTool.run errSearchEnv "automation tools]"
      = ("Error during file search with Assistant API: boom",
         [CallEvent.assistantApiCall "automation tools]"]) ∧
    demoAgent.run errSearchEnv "What tools has she used?"
      = ({ output := scenario2Plan },
         [CallEvent.modelCall (initialMessages demoAgent demoTool "What tools has she used?"),
          CallEvent.retrievalCall "automation tools]",
          CallEvent.assistantApiCall "automation tools]",
          CallEvent.modelCall (finalPromptMessages demoAgent demoTool
            "What tools has she used?" scenario2Plan
            (toolResultsText demoTool.name "automation tools]"
              "Error during file search with Assistant API: boom"))]) := by
  have h := C7_retrieval_error_converted_single_synthesis demoAgent demoTool []
    errSearchEnv "What tools has she used?" scenario2Plan "automation tools]"
    "boom" scenario2Plan rfl rfl (by decide) rfl rfl rfl
  exact ⟨h.1, h.2.1⟩

/-- Claim C1: in a turn where every remote call succeeds (environment built
from total response functions) and a retrieval tool is registered: if the
planning text scans to a dispatch (marker present, invocation pattern
present, intro phrase found, extracted tool name matching the registered
tool case-insensitively, non-empty query), the turn performs exactly one
retrieval call and exactly two model calls, in the order plan, then
retrieve, then synthesize, and returns the synthesizer\x27s output; in every
other case it performs no retrieval call and exactly one model call (whose
text is the final answer). -/
theorem C1_one_retrieval_two_models_iff_dispatch (agent : Agent)
    (tool : FileSearchTool) (rest : List FileSearchTool)
    (chatF : List Msg → String) (searchF : String → String) (user : String)
    (hT : agent.tools = tool :: rest) :
    ((∃ q, analyzePlan tool.name (chatF (initialMessages agent tool user))
        = .dispatch q) →
      ∃ q,
        analyzePlan tool.name (chatF (initialMessages agent tool user)) = .dispatch q ∧
        (agent.run (okEnv chatF searchF) user).2.filter CallEvent.isRetrieval
          = [CallEvent.retrievalCall q] ∧
        ((agent.run (okEnv chatF searchF) user).2.filter CallEvent.isModel).length = 2 ∧
        (agent.run (okEnv chatF searchF) user).2.filter
            (fun ev => ev.isModel || ev.isRetrieval)
          = [CallEvent.modelCall (initialMessages agent tool user),
             CallEvent.retrievalCall q,
             CallEvent.modelCall (finalPromptMessages agent tool user
               (chatF (initialMessages agent tool user))
               (toolResultsText tool.name q
                 ((tool.run (okEnv chatF searchF) q).1)))] ∧
        (agent.run (okEnv chatF searchF) user).1.output
          = chatF (finalPromptMessages agent tool user
              (chatF (initialMessages agent tool user))
              (toolResultsText tool.name q
                ((tool.run (okEnv chatF searchF) q).1)))) ∧
    ((∀ q, analyzePlan tool.name (chatF (initialMessages agent tool user))
        ≠ .dispatch q) →
      (agent.run (okEnv chatF searchF) user).2.filter CallEvent.isRetrieval = [] ∧
      (agent.run (okEnv chatF searchF) user).2.filter CallEvent.isModel
        = [CallEvent.modelCall (initialMessages agent tool user)]) := by
  have hplan : (okEnv chatF searchF).chat (initialMessages agent tool user)
      = .ok (chatF (initialMessages agent tool user)) := rfl
  have hrun := run_eq_ok agent tool rest (okEnv chatF searchF) user
      (chatF (initialMessages agent tool user)) hT hplan
  constructor
  · rintro ⟨q, hq⟩
    rw [hq] at hrun
    dsimp only at hrun
    have hs : ∀ m, (okEnv chatF searchF).chat m = .ok (chatF m) := fun _ => rfl
    simp only [hs] at hrun
    rcases FileSearchTool.run_events tool (okEnv chatF searchF) q with he | he <;>
      rw [he] at hrun <;>
      refine ⟨q, hq, ?_, ?_, ?_, ?_⟩ <;>
      rw [hrun] <;>
      simp [CallEvent.isModel, CallEvent.isRetrieval]
  · intro hne
    cases hp : analyzePlan tool.name (chatF (initialMessages agent tool user)) with
    | noToolRequest =>
      rw [hp] at hrun
      rw [hrun]
      exact ⟨rfl, rfl⟩
    | introNotFound =>
      rw [hp] at hrun
      rw [hrun]
      exact ⟨rfl, rfl⟩
    | invalidToolOrQuery =>
      rw [hp] at hrun
      rw [hrun]
      exact ⟨rfl, rfl⟩
    | dispatch q => exact absurd hp (hne q)

/-- Witness for C1: round-trip scenario 2 of the spec (planner answers with
the canonical plan, retrieval succeeds); the turn makes exactly one
retrieval call. -/
theorem C1_one_retrieval_two_models_iff_dispatch_witness :
    (demoAgent.run (okEnv (fun _ => scenario2Plan)
        (fun _ => "She has used Zapier and Make.")) "What tools has she used?").2.filter
        CallEvent.isRetrieval
      = [CallEvent.retrievalCall "automation tools]"] := by
  have h := C1_one_retrieval_two_models_iff_dispatch demoAgent demoTool []
    (fun _ => scenario2Plan) (fun _ => "She has used Zapier and Make.")
    "What tools has she used?" rfl
  obtain ⟨q, hq, hr, _⟩ := h.1 ⟨"automation tools]", by decide⟩
  have h2 : PlanOutcome.dispatch q = PlanOutcome.dispatch "automation tools]" := by
    rw [← hq]; decide
  injection h2 with h3
  rw [h3] at hr
  exact hr

/-- The canonical plan with an empty bracket query and the mandated trailing
period. -/
def emptyBracketPlan : String :=
  "TOOL_USE: I will use [file_search] to find information about []."

/-- The empty-bracket plan without a trailing period. -/
def emptyBracketNoPeriodPlan : String :=
  "TOOL_USE: I will use [file_search] to find information about []"

/-- A marker-bearing plan naming a tool that is not registered. -/
def unregisteredToolPlan : String :=
  "TOOL_USE: I will use [web_search] to find information about [automation tools]."

/-- Claim C2, evaluated at the failing input: for the canonical plan
`TOOL_USE: I will use [file_search] to find information about [automation tools].`
the query passed to the retrieval tool is `automation tools]`, not
`automation tools`: the clean-up of lines 191-199 tests `endswith("]")`
before `endswith(".")`, so with the mandated trailing period only the
period is removed and the closing bracket stays attached to the query. -/
theorem C2_trailing_bracket_kept_in_query :
    analyzePlan "file_search" scenario2Plan
      = PlanOutcome.dispatch "automation tools]" ∧
    "automation tools]" ≠ "automation tools" ∧
    (demoAgent.run (constEnv scenario2Plan) "What tools has she used?").2.filter
        CallEvent.isRetrieval
      = [CallEvent.retrievalCall "automation tools]"] := by
  refine ⟨by decide, by decide, ?_⟩
  have hrun := run_eq_ok demoAgent demoTool [] (constEnv scenario2Plan)
    "What tools has she used?" scenario2Plan rfl rfl
  rw [show analyzePlan demoTool.name scenario2Plan
      = PlanOutcome.dispatch "automation tools]" by decide] at hrun
  dsimp only at hrun
  have hs : ∀ m, (constEnv scenario2Plan).chat m = .ok scenario2Plan := fun _ => rfl
  simp only [hs] at hrun
  rw [hrun]
  rcases FileSearchTool.run_events demoTool (constEnv scenario2Plan)
      "automation tools]" with he | he <;> rw [he] <;> rfl

/-- Claim C5, evaluated at the failing input: for the plan
`TOOL_USE: I will use [file_search] to find information about [].`
(empty bracket query, mandated trailing period) the code does NOT treat the
parse as a failure: the clean-up leaves the query `]`, which is non-empty,
so validation passes and a retrieval call is made with query `]`. -/
theorem C5_empty_bracket_with_period_dispatches :
    analyzePlan "file_search" emptyBracketPlan = PlanOutcome.dispatch "]" ∧
    (demoAgent.run (constEnv emptyBracketPlan) "q").2.filter CallEvent.isRetrieval
      = [CallEvent.retrievalCall "]"] := by
  refine ⟨by decide, ?_⟩
  have hrun := run_eq_ok demoAgent demoTool [] (constEnv emptyBracketPlan)
    "q" emptyBracketPlan rfl rfl
  rw [show analyzePlan demoTool.name emptyBracketPlan
      = PlanOutcome.dispatch "]" by decide] at hrun
  dsimp only at hrun
  have hs : ∀ m, (constEnv emptyBracketPlan).chat m = .ok emptyBracketPlan :=
    fun _ => rfl
  simp only [hs] at hrun
  rw [hrun]
  rcases FileSearchTool.run_events demoTool (constEnv emptyBracketPlan)
      "]" with he | he <;> rw [he] <;> rfl

/-- Counterexample to claim C3 as stated: the plan
`TOOL_USE: I will use [web_search] to find information about [automation tools].`
contains the marker and names an unregistered tool (`web_search`, while the
registered tool is `file_search`), yet `Agent.run` returns the planning
text completely unchanged — no clarification suffix is appended — because
the invocation-pattern check of line 176 already fails and the turn takes
the silent `else` branch of line 252. (Zero retrieval calls do occur, as
the claim says.) -/
theorem C3_counterexample_unregistered_tool_silent :
    (findSub (pyLower unregisteredToolPlan.data)
        (pyLower "TOOL_USE:".data)).isSome = true ∧
    analyzePlan "file_search" unregisteredToolPlan = PlanOutcome.noToolRequest ∧
    (demoAgent.run (constEnv unregisteredToolPlan) "q").1.output
      = unregisteredToolPlan ∧
    (demoAgent.run (constEnv unregisteredToolPlan) "q").2.filter
        CallEvent.isRetrieval = [] := by
  have hrun := run_eq_ok demoAgent demoTool [] (constEnv unregisteredToolPlan)
    "q" unregisteredToolPlan rfl rfl
  rw [show analyzePlan demoTool.name unregisteredToolPlan
      = PlanOutcome.noToolRequest by decide] at hrun
  dsimp only at hrun
  exact ⟨by decide, by decide, by rw [hrun], by simp [hrun, CallEvent.isRetrieval]⟩

/-- Claim C3 (amended): for every planning text containing the marker for
which the scan does not reach a dispatch, `Agent.run` makes zero retrieval
calls and returns the planning text either with one of the two fixed
clarification suffixes appended (when the invocation pattern for the
registered tool was present but the intro phrase was missing, respectively
the tool-name/query validation failed) or completely unchanged (when the
invocation pattern itself was absent, e.g. an unregistered tool name). -/
theorem C3_amended_marker_no_dispatch_fallbacks (agent : Agent)
    (tool : FileSearchTool) (rest : List FileSearchTool) (env : Env)
    (user plan : String) (hT : agent.tools = tool :: rest)
    (hplan : env.chat (initialMessages agent tool user) = .ok plan)
    (_hMarker : (findSub (pyLower plan.data) (pyLower "TOOL_USE:".data)).isSome = true)
    (hnd : ∀ q, analyzePlan tool.name plan ≠ .dispatch q) :
    (agent.run env user).2.filter CallEvent.isRetrieval = [] ∧
    (analyzePlan tool.name plan = .noToolRequest →
       (agent.run env user).1.output = plan) ∧
    (analyzePlan tool.name plan = .introNotFound →
       (agent.run env user).1.output = plan ++ noteIntroMissing) ∧
    (analyzePlan tool.name plan = .invalidToolOrQuery →
       (agent.run env user).1.output = plan ++ noteInvalidToolOrQuery) := by
  have hrun := run_eq_ok agent tool rest env user plan hT hplan
  cases hp : analyzePlan tool.name plan with
  | dispatch q => exact absurd hp (hnd q)
  | noToolRequest =>
    rw [hp] at hrun
    rw [hrun]
    exact ⟨rfl, fun _ => rfl, fun h => by simp at h, fun h => by simp at h⟩
  | introNotFound =>
    rw [hp] at hrun
    rw [hrun]
    exact ⟨rfl, fun h => by simp at h, fun _ => rfl, fun h => by simp at h⟩
  | invalidToolOrQuery =>
    rw [hp] at hrun
    rw [hrun]
    exact ⟨rfl, fun h => by simp at h, fun h => by simp at h, fun _ => rfl⟩

/-- Witness for the amended C3 at the empty-bracket-no-period plan, which
scans to `invalidToolOrQuery`: the note of line 244 is appended and no
retrieval call happens. -/
theorem C3_amended_marker_no_dispatch_fallbacks_witness :
    (demoAgent.run (constEnv emptyBracketNoPeriodPlan) "q").1.output
      = emptyBracketNoPeriodPlan ++ noteInvalidToolOrQuery ∧
    (demoAgent.run (constEnv emptyBracketNoPeriodPlan) "q").2.filter
        CallEvent.isRetrieval = [] := by
  have h := C3_amended_marker_no_dispatch_fallbacks demoAgent demoTool []
    (constEnv emptyBracketNoPeriodPlan) "q" emptyBracketNoPeriodPlan rfl rfl
    (by decide)
    (fun q hq => by
      rw [show analyzePlan demoTool.name emptyBracketNoPeriodPlan
          = PlanOutcome.invalidToolOrQuery by decide] at hq
      simp at hq)
  exact ⟨h.2.2.2 (by decide), h.1⟩

/-! ## Substring-search lemmas for the case-insensitivity claim -/

/-- A prefix of `l` is also a prefix of `l ++ s`. -/
theorem isPre_append_of (n l s : List Char) (h : isPre n l = true) :
    isPre n (l ++ s) = true := by
  induction n generalizing l with
  | nil => rfl
  | cons a as ih =>
    cases l with
    | nil => cases h
    | cons b bs =>
      show (decide (a = b) && isPre as (bs ++ s)) = true
      have h2 : (decide (a = b) && isPre as bs) = true := h
      simp only [Bool.and_eq_true] at h2 ⊢
      exact ⟨h2.1, ih bs h2.2⟩

/-- A prefix is no longer than the list. -/
theorem isPre_length_le (n l : List Char) (h : isPre n l = true) :
    n.length ≤ l.length := by
  induction n generalizing l with
  | nil => simp
  | cons a as ih =>
    cases l with
    | nil => cases h
    | cons b bs =>
      have h2 : (decide (a = b) && isPre as bs) = true := h
      simp only [Bool.and_eq_true] at h2
      simpa using ih bs h2.2

/-- When the window fits inside `l`, appending a suffix does not change
whether `n` is a prefix. -/
theorem isPre_append_iff (n l s : List Char) (h : n.length ≤ l.length) :
    isPre n (l ++ s) = isPre n l := by
  induction n generalizing l with
  | nil => rfl
  | cons a as ih =>
    cases l with
    | nil => simp at h
    | cons b bs =>
      simp only [List.length_cons, Nat.succ_le_succ_iff] at h
      show (decide (a = b) && isPre as (bs ++ s)) = (decide (a = b) && isPre as bs)
      rw [ih bs h]

/-- A first occurrence that fits entirely inside a prefix of the haystack
stays the first occurrence after appending any suffix. -/
theorem findSub_append_left (pre suf needle : List Char) (k : Nat)
    (h : findSub pre needle = some k) (hb : k + needle.length ≤ pre.length) :
    findSub (pre ++ suf) needle = some k := by
  induction pre generalizing k with
  | nil =>
    have hn : needle = [] := by
      by_contra hn
      simp [findSub, hn] at h
    subst hn
    have hk : k = 0 := by
      simp [findSub] at h
      omega
    subst hk
    cases suf <;> simp [findSub, isPre]
  | cons c t ih =>
    simp only [findSub] at h
    by_cases hp : isPre needle (c :: t) = true
    · rw [if_pos hp] at h
      simp only [Option.some.injEq] at h
      subst h
      show findSub (c :: (t ++ suf)) needle = some 0
      have h2 : isPre needle (c :: (t ++ suf)) = true := by
        have := isPre_append_of needle (c :: t) suf hp
        simpa using this
      simp [findSub, h2]
    · rw [if_neg hp] at h
      have hpf : isPre needle (c :: t) = false := by
        simpa using hp
      cases hk2 : findSub t needle with
      | none =>
        rw [hk2] at h
        simp at h
      | some k0 =>
        rw [hk2] at h
        simp only [Option.map_some'] at h
        have hkk : k0 + 1 = k := by simpa using h
        have hb2 : k0 + needle.length ≤ t.length := by
          simp only [List.length_cons] at hb
          omega
        have hlen : needle.length ≤ (c :: t).length := by
          simp only [List.length_cons] at hb ⊢
          omega
        have hp2 : isPre needle (c :: (t ++ suf)) = false := by
          have hh := isPre_append_iff needle (c :: t) suf hlen
          have : isPre needle ((c :: t) ++ suf) = false := hh.trans hpf
          simpa using this
        show findSub (c :: (t ++ suf)) needle = some k
        simp only [findSub, hp2, Bool.false_eq_true, if_false]
        rw [ih k0 hk2 hb2]
        simp [hkk]

/-- Searching for a single character distributes over an append whose left
part does not contain it. -/
theorem findSub_single_append (xs ys : List Char) (c : Char) (h : c ∉ xs) :
    findSub (xs ++ ys) [c] = (findSub ys [c]).map (· + xs.length) := by
  induction xs with
  | nil =>
    show findSub ys [c] = (findSub ys [c]).map (· + 0)
    cases findSub ys [c] <;> simp
  | cons a t ih =>
    have hne : ¬(c = a) := fun hc => h (hc ▸ List.mem_cons_self a t)
    have ht : c ∉ t := fun hc => h (List.mem_cons_of_mem a hc)
    have hpre : isPre [c] (a :: (t ++ ys)) = false := by
      show (decide (c = a) && isPre [] (t ++ ys)) = false
      simp [hne]
    show (if isPre [c] (a :: (t ++ ys)) = true then some 0
          else (findSub (t ++ ys) [c]).map (· + 1))
        = (findSub ys [c]).map (· + (a :: t).length)
    simp only [hpre, Bool.false_eq_true, if_false]
    rw [ih ht]
    cases findSub ys [c] with
    | none => rfl
    | some k =>
      simp only [Option.map_some', Option.some.injEq, List.length_cons]
      omega

/-- Searching for a character at the head finds it at index 0. -/
theorem findSub_cons_self (c : Char) (t : List Char) :
    findSub (c :: t) [c] = some 0 := by
  have hpre : isPre [c] (c :: t) = true := by
    show (decide (c = c) && isPre [] t) = true
    simp
    rfl
  simp [findSub, hpre]

/-! ## Whitespace and strip lemmas -/

/-- ASCII lowering fixes every whitespace character. -/
theorem toLower_of_isWhitespace (c : Char) (h : c.isWhitespace = true) :
    c.toLower = c := by
  have h2 : c = ' ' ∨ c = '\t' ∨ c = '\x0d' ∨ c = '\n' := by
    simpa [Char.isWhitespace, or_assoc] using h
  rcases h2 with h2 | h2 | h2 | h2 <;> subst h2 <;> decide

/-- A character list whose lowering is `"file_search"` has no whitespace
and no closing bracket. -/
theorem chars_of_lower_file_search (B : List Char)
    (h : pyLower B = "file_search".data) :
    (∀ c ∈ B, c.isWhitespace = false) ∧ ']' ∉ B := by
  have hall : ∀ c ∈ "file_search".data, c.isWhitespace = false := by decide
  have hbr : ']' ∉ "file_search".data := by decide
  constructor
  · intro c hc
    by_contra hw
    have hw2 : c.isWhitespace = true := by simpa using hw
    have h1 : c.toLower ∈ pyLower B := List.mem_map_of_mem Char.toLower hc
    rw [toLower_of_isWhitespace c hw2, h] at h1
    simp [hall c h1] at hw2
  · intro hm
    have h1 : ']'.toLower ∈ pyLower B := List.mem_map_of_mem Char.toLower hm
    rw [show ']'.toLower = ']' from by decide, h] at h1
    exact hbr h1

/-- `dropWhile` keeps a list whose head fails the predicate. -/
theorem dropWhile_cons_false (p : Char → Bool) (a : Char) (t : List Char)
    (ha : p a = false) : (a :: t).dropWhile p = a :: t := by
  simp [List.dropWhile, ha]

/-- `dropWhile` keeps a list all of whose members fail the predicate. -/
theorem dropWhile_eq_self_of (p : Char → Bool) (l : List Char)
    (h : ∀ c ∈ l, p c = false) : l.dropWhile p = l := by
  cases l with
  | nil => rfl
  | cons a t => exact dropWhile_cons_false p a t (h a (List.mem_cons_self a t))

/-- `dropWhile` of a list ending in an element failing the predicate ends
in that element. -/
theorem dropWhile_concat_exists (p : Char → Bool) (m : List Char) (b : Char)
    (hb : p b = false) :
    ∃ s, (m ++ [b]).dropWhile p = s ++ [b] := by
  induction m with
  | nil => exact ⟨[], by simpa using dropWhile_cons_false p b [] hb⟩
  | cons a t ih =>
    by_cases ha : p a = true
    · obtain ⟨s, hs⟩ := ih
      refine ⟨s, ?_⟩
      show List.dropWhile p (a :: (t ++ [b])) = s ++ [b]
      simp only [List.dropWhile, ha]
      exact hs
    · refine ⟨a :: t, ?_⟩
      show List.dropWhile p (a :: (t ++ [b])) = (a :: t) ++ [b]
      rw [dropWhile_cons_false p a (t ++ [b]) (by simpa using ha)]
      simp

/-- `stripChars` keeps a list of non-whitespace characters. -/
theorem stripChars_eq_self (l : List Char)
    (h : ∀ c ∈ l, c.isWhitespace = false) :
    stripChars l = l := by
  unfold stripChars
  rw [dropWhile_eq_self_of _ _ h]
  rw [dropWhile_eq_self_of _ _ (fun c hc => h c (List.mem_reverse.mp hc))]
  exact List.reverse_reverse l

/-- `stripChars` of a list ending in a non-whitespace character still ends
in that character. -/
theorem stripChars_concat_exists (m : List Char) (b : Char)
    (hb : b.isWhitespace = false) :
    ∃ s, stripChars (m ++ [b]) = s ++ [b] := by
  obtain ⟨s, hs⟩ := dropWhile_concat_exists Char.isWhitespace m b hb
  refine ⟨s, ?_⟩
  unfold stripChars
  rw [hs]
  rw [show (s ++ [b]).reverse = b :: s.reverse by simp]
  rw [dropWhile_cons_false _ _ _ hb]
  simp

/-- `stripChars` of a list with non-whitespace head and non-whitespace last
element keeps the list. -/
theorem stripChars_cons_concat (a b : Char) (m : List Char)
    (ha : a.isWhitespace = false) (hb : b.isWhitespace = false) :
    stripChars (a :: (m ++ [b])) = a :: (m ++ [b]) := by
  unfold stripChars
  rw [dropWhile_cons_false _ _ _ ha]
  rw [show (a :: (m ++ [b])).reverse = b :: (m.reverse ++ [a]) by simp]
  rw [dropWhile_cons_false _ _ _ hb]
  simp

/-- Lowering the canonical plan built from a tool-name spelling `T` (whose
lowering is `file_search`) and a query text `Q`: the fixed parts lower to
their lowercase forms, `T` lowers to `file_search`. -/
theorem pyLower_canonical (T Q : String)
    (hT : pyLower T.data = "file_search".data) :
    pyLower ("TOOL_USE: I will use [" ++ T ++ "] to find information about [" ++ Q ++ "].").data
      = ("tool_use: i will use [".data
          ++ ("file_search".data ++ "] to find information about [".data))
        ++ (List.map Char.toLower Q.data ++ "].".data) := by
  have hT' : List.map Char.toLower T.data = "file_search".data := hT
  have hdata : ("TOOL_USE: I will use [" ++ T ++ "] to find information about [" ++ Q ++ "].").data
      = "TOOL_USE: I will use [".data
        ++ (T.data ++ ("] to find information about [".data ++ (Q.data ++ "].".data))) := by
    simp [String.data_append]
  have ha : List.map Char.toLower "TOOL_USE: I will use [".data
      = "tool_use: i will use [".data := by decide
  have hc : List.map Char.toLower "] to find information about [".data
      = "] to find information about [".data := by decide
  have he : List.map Char.toLower "].".data = "].".data := by decide
  rw [hdata]
  simp only [pyLower, List.map_append]
  rw [ha, hc, he, hT']
  simp [List.append_assoc]

/-- For every spelling `T` of the registered tool name that lowers to
`file_search` and every query text `Q`, the canonical plan scans to a
dispatch whose query is the stripped `Q` with the trailing bracket
attached. -/
theorem analyzePlan_canonical_template (T Q : String)
    (hT : pyLower T.data = "file_search".data) :
    analyzePlan "file_search"
        ("TOOL_USE: I will use [" ++ T ++ "] to find information about [" ++ Q ++ "].")
      = PlanOutcome.dispatch (String.mk (stripChars (Q.data ++ [']']))) := by
  have hT' : List.map Char.toLower T.data = "file_search".data := hT
  have hlenT : T.data.length = 11 := by
    have h1 := congrArg List.length hT'
    simp only [List.length_map] at h1
    rw [h1]
    decide
  obtain ⟨hws, hbr⟩ := chars_of_lower_file_search T.data hT
  have hdata : ("TOOL_USE: I will use [" ++ T ++ "] to find information about [" ++ Q ++ "].").data
      = "TOOL_USE: I will use [".data
        ++ (T.data ++ ("] to find information about [".data ++ (Q.data ++ "].".data))) := by
    simp [String.data_append]
  unfold analyzePlan
  dsimp only
  rw [pyLower_canonical T Q hT]
  rw [findSub_append_left _ _ (pyLower "TOOL_USE:".data) 0 (by decide) (by decide)]
  rw [findSub_append_left _ _
    ("i will use [".data ++ pyLower "file_search".data ++ [']']) 10 (by decide) (by decide)]
  dsimp only
  rw [findSub_append_left _ _ "to find information about ".data 35 (by decide) (by decide)]
  dsimp only
  rw [hdata]
  rw [show (35 + "to find information about ".length) = 61 from by decide]
  rw [show (10 + "i will use ".length) = 21 from by decide]
  have hsplit61 : "TOOL_USE: I will use [".data
      ++ (T.data ++ ("] to find information about [".data ++ (Q.data ++ "].".data)))
      = ("TOOL_USE: I will use [".data ++ (T.data ++ "] to find information about ".data))
        ++ ('[' :: (Q.data ++ "].".data)) := by
    rw [show "] to find information about [".data
        = "] to find information about ".data ++ ['['] from by decide]
    simp [List.append_assoc]
  have hlen61 : ("TOOL_USE: I will use [".data
      ++ (T.data ++ "] to find information about ".data)).length = 61 := by
    simp only [List.length_append, hlenT]
    decide
  have hdrop61 : List.drop 61 ("TOOL_USE: I will use [".data
      ++ (T.data ++ ("] to find information about [".data ++ (Q.data ++ "].".data))))
      = '[' :: (Q.data ++ "].".data) := by
    rw [hsplit61]
    exact List.drop_left' hlen61
  rw [hdrop61]
  have hclean : cleanQuery ('[' :: (Q.data ++ "].".data))
      = stripChars (Q.data ++ [']']) := by
    unfold cleanQuery
    dsimp only
    rw [show (Q.data ++ "].".data) = (Q.data ++ [']']) ++ ['.'] from by simp]
    rw [stripChars_cons_concat '[' '.' (Q.data ++ [']']) (by decide) (by decide)]
    have e1 : ((Q.data ++ [']']) ++ ['.']).getLast? = some '.' := List.getLast?_concat _
    have e2 : ((']' : Char) = '[') = False := eq_false (by decide)
    have e3 : (('.' : Char) = ']') = False := eq_false (by decide)
    have e4 : (('.' : Char) = '.') = True := eq_true rfl
    have e5 : (('[' : Char) = '[') = True := eq_true rfl
    simp only [List.head?_cons, Option.some.injEq, e2, e3, e4, e5, if_true, if_false,
      List.drop_succ_cons, List.drop_zero, e1, List.dropLast_concat]
  rw [hclean]
  have hsplit21 : "TOOL_USE: I will use [".data
      ++ (T.data ++ ("] to find information about [".data ++ (Q.data ++ "].".data)))
      = "TOOL_USE: I will use ".data
        ++ ('[' :: (T.data ++ ("] to find information about [".data ++ (Q.data ++ "].".data)))) := by
    rw [show "TOOL_USE: I will use [".data
        = "TOOL_USE: I will use ".data ++ ['['] from by decide]
    simp [List.append_assoc]
  have hdrop21 : List.drop 21 ("TOOL_USE: I will use [".data
      ++ (T.data ++ ("] to find information about [".data ++ (Q.data ++ "].".data))))
      = '[' :: (T.data ++ ("] to find information about [".data ++ (Q.data ++ "].".data))) := by
    rw [hsplit21]
    exact List.drop_left' (by decide)
  have hextract : extractedToolName ("TOOL_USE: I will use [".data
      ++ (T.data ++ ("] to find information about [".data ++ (Q.data ++ "].".data)))) 21
      = T.data := by
    unfold extractedToolName
    rw [hdrop21]
    have hnotmem : ']' ∉ ('[' :: T.data) := by
      intro hm
      rcases List.mem_cons.mp hm with hm | hm
      · cases hm
      · exact hbr hm
    have hys : findSub ("] to find information about [".data ++ (Q.data ++ "].".data)) [']']
        = some 0 := by
      rw [show "] to find information about [".data
          = ']' :: " to find information about [".data from by decide]
      rw [List.cons_append]
      exact findSub_cons_self _ _
    have hfind := findSub_single_append ('[' :: T.data)
      ("] to find information about [".data ++ (Q.data ++ "].".data)) ']' hnotmem
    rw [List.cons_append, hys] at hfind
    simp only [Option.map_some', List.length_cons, hlenT] at hfind
    simp only [Nat.zero_add, Nat.reduceAdd] at hfind
    rw [hfind]
    dsimp only
    rw [show (21 + 1 : Nat) = 22 from rfl]
    rw [show (12 - 1 : Nat) = 11 from rfl]
    have hdrop22 : List.drop 22 ("TOOL_USE: I will use [".data
        ++ (T.data ++ ("] to find information about [".data ++ (Q.data ++ "].".data))))
        = T.data ++ ("] to find information about [".data ++ (Q.data ++ "].".data)) :=
      List.drop_left' (by decide)
    rw [hdrop22]
    rw [List.take_left' hlenT]
    exact stripChars_eq_self T.data hws
  rw [hextract]
  have hcond1 : pyLower T.data
      = pyLower ['f', 'i', 'l', 'e', '_', 's', 'e', 'a', 'r', 'c', 'h'] := by
    rw [hT]
    decide
  have hcond2 : stripChars (Q.data ++ [']']) ≠ [] := by
    obtain ⟨s, hs⟩ := stripChars_concat_exists Q.data ']' (by decide)
    rw [hs]
    simp
  rw [if_pos ⟨hcond1, hcond2⟩]

/-- Claim C6: tool-name matching is case-insensitive. For every spelling
`T` of the registered tool name that equals it up to letter case (ASCII
lowering `file_search`, e.g. `File_Search`) and every query text `Q`, the
canonical plan `TOOL_USE: I will use [T] to find information about [Q].`
passes the marker check and the invocation-pattern check of lines 175-176,
passes the extracted-tool-name validation of line 217, and the retrieval
call is made (with the query the clean-up produces). -/
theorem C6_tool_name_match_case_insensitive (agent : Agent)
    (tool : FileSearchTool) (rest : List FileSearchTool) (env : Env)
    (user T Q : String) (hT : agent.tools = tool :: rest)
    (hname : tool.name = "file_search")
    (hTl : pyLower T.data = "file_search".data)
    (hplan : env.chat (initialMessages agent tool user)
      = .ok ("TOOL_USE: I will use [" ++ T ++ "] to find information about [" ++ Q ++ "].")) :
    (findSub (pyLower ("TOOL_USE: I will use [" ++ T
        ++ "] to find information about [" ++ Q ++ "].").data)
        (pyLower "TOOL_USE:".data)).isSome = true ∧
    (findSub (pyLower ("TOOL_USE: I will use [" ++ T
        ++ "] to find information about [" ++ Q ++ "].").data)
        ("i will use [".data ++ pyLower tool.name.data ++ [']'])).isSome = true ∧
    analyzePlan tool.name
        ("TOOL_USE: I will use [" ++ T ++ "] to find information about [" ++ Q ++ "].")
      = PlanOutcome.dispatch (String.mk (stripChars (Q.data ++ [']']))) ∧
    (agent.run env user).2.filter CallEvent.isRetrieval
      = [CallEvent.retrievalCall (String.mk (stripChars (Q.data ++ [']'])))] := by
  have hdisp : analyzePlan tool.name
      ("TOOL_USE: I will use [" ++ T ++ "] to find information about [" ++ Q ++ "].")
      = PlanOutcome.dispatch (String.mk (stripChars (Q.data ++ [']']))) := by
    rw [hname]
    exact analyzePlan_canonical_template T Q hTl
  refine ⟨?_, ?_, hdisp, ?_⟩
  · rw [pyLower_canonical T Q hTl]
    rw [findSub_append_left _ _ (pyLower "TOOL_USE:".data) 0 (by decide) (by decide)]
    rfl
  · rw [hname, pyLower_canonical T Q hTl]
    rw [findSub_append_left _ _
      ("i will use [".data ++ pyLower "file_search".data ++ [']']) 10 (by decide) (by decide)]
    rfl
  · have hrun := run_eq_ok agent tool rest env user
      ("TOOL_USE: I will use [" ++ T ++ "] to find information about [" ++ Q ++ "].") hT hplan
    rw [hdisp] at hrun
    dsimp only at hrun
    cases hs : env.chat (finalPromptMessages agent tool user
        ("TOOL_USE: I will use [" ++ T ++ "] to find information about [" ++ Q ++ "].")
        (toolResultsText tool.name (String.mk (stripChars (Q.data ++ [']'])))
          (tool.run env (String.mk (stripChars (Q.data ++ [']'])))).1)) with
    | ok o =>
      rw [hs] at hrun
      rcases FileSearchTool.run_events tool env (String.mk (stripChars (Q.data ++ [']'])))
          with he | he <;>
        rw [he] at hrun <;> rw [hrun] <;> simp [CallEvent.isRetrieval]
    | error e =>
      rw [hs] at hrun
      rcases FileSearchTool.run_events tool env (String.mk (stripChars (Q.data ++ [']'])))
          with he | he <;>
        rw [he] at hrun <;> rw [hrun] <;> simp [CallEvent.isRetrieval]

/-- Witness for C6 at the spec\x27s boundary example `[File_Search]` against
registered `file_search`, with query text `automation tools`. -/
theorem C6_tool_name_match_case_insensitive_witness :
    analyzePlan demoTool.name
        ("TOOL_USE: I will use [" ++ "File_Search"
          ++ "] to find information about [" ++ "automation tools" ++ "].")
      = PlanOutcome.dispatch (String.mk (stripChars ("automation tools".data ++ [']']))) ∧
    (demoAgent.run (constEnv ("TOOL_USE: I will use [" ++ "File_Search"
        ++ "] to find information about [" ++ "automation tools" ++ "]."))
        "What tools has she used?").2.filter CallEvent.isRetrieval
      = [CallEvent.retrievalCall
          (String.mk (stripChars ("automation tools".data ++ [']'])))] := by
  have h := C6_tool_name_match_case_insensitive demoAgent demoTool []
    (constEnv ("TOOL_USE: I will use [" ++ "File_Search"
      ++ "] to find information about [" ++ "automation tools" ++ "]."))
    "What tools has she used?" "File_Search" "automation tools" rfl rfl (by decide) rfl
  exact ⟨h.2.2.1, h.2.2.2⟩
